import Mathlib

/-!
# Verification of the conversion rule closure engine

A shallow embedding of the weight-unit conversion service
(`src/conversion.rs`, `src/main.rs`, `src/error.rs`).

Modelling conventions:
* Rust `f64` values and arithmetic are embedded as exact rationals (`ℚ`).
  The seed factors are short decimal literals, so they and all the
  products, reciprocals and ceilings appearing below are exactly
  representable as rationals.
* `format!("{:.8}", x)` followed by `str::parse` rounds `x` to the nearest
  multiple of `10 ^ (-8)`; it is embedded as `roundTo8`.  No exact decimal
  tie arises at any value these theorems evaluate, so the tie-breaking
  direction is immaterial.
* The Rust `HashSet<ConversionRule>` deduplicates by the `(from, to)` pair
  only (its hand-written `PartialEq`/`Hash` ignore `factor`); it is
  embedded as a `List ConversionRule` with pair-keyed insertion
  (`insertRule`), iterated in insertion order.  Rust leaves the hash-set
  iteration order unspecified; insertion order is the fixed order used by
  this embedding.
* Panicking branches (`todo!`, failed lookup) are embedded as `Option`
  with `none` for the panic.
-/

namespace ConversionApi

/-- A Weight unit, either metric (gram, kilo, ton) or pound
(`enum Unit` in `src/conversion.rs` / `src/main.rs`). -/
inductive Unit where
  | Lb
  | Kilo
  | Ton
  | Gram
  deriving DecidableEq, Fintype

/-- `Unit::is_metric`: true for `Kilo`, `Ton` and `Gram`, false for `Lb`. -/
def Unit.is_metric : Unit → Bool
  | .Kilo => true
  | .Ton => true
  | .Gram => true
  | .Lb => false

/-- The error enum of `src/error.rs`. -/
inductive ConvertError where
  | UnknownUnit : String → ConvertError
  deriving DecidableEq

/-- `impl TryFrom<&str> for Unit` (`src/main.rs`): the fallible unit-code
parser, recognising exactly four strings. -/
def Unit.tryFrom (unit : String) : Except ConvertError Unit :=
  if unit = ("lb") then .ok .Lb
  else if unit = ("g") then .ok .Gram
  else if unit = ("kg") then .ok .Kilo
  else if unit = ("metric ton") then .ok .Ton
  else .error (ConvertError.UnknownUnit unit)

/-- `impl From<&str> for Unit` (`src/conversion.rs`): same four codes; the
`todo!("error")` panic on any other string is embedded as `none`. -/
def Unit.fromStr? (unit : String) : Option Unit :=
  if unit = ("lb") then some .Lb
  else if unit = ("g") then some .Gram
  else if unit = ("kg") then some .Kilo
  else if unit = ("metric ton") then some .Ton
  else none

/-- `struct ConversionRule { from, to, factor }`.  The Rust field `from` is
a Lean keyword, hence `fromUnit` / `toUnit`. -/
structure ConversionRule where
  fromUnit : Unit
  toUnit : Unit
  factor : ℚ
  deriving DecidableEq

/-- `ConversionRule::invert`: swap the pair and take the reciprocal factor. -/
def ConversionRule.invert (r : ConversionRule) : ConversionRule :=
  ⟨r.toUnit, r.fromUnit, 1 / r.factor⟩

/-- `ConversionRule::apply_to`: multiply the quantity by the factor. -/
def ConversionRule.apply_to (r : ConversionRule) (quantity : ℚ) : ℚ :=
  r.factor * quantity

/-- `ConversionRule::combine`: compose two rules, with the metric `ceil`
correction on factors greater than one. -/
def ConversionRule.combine (r other : ConversionRule) : ConversionRule :=
  let f := r.fromUnit
  let t := other.toUnit
  let factor : ℚ := if f = t then 1 else r.factor * other.factor
  let factor : ℚ :=
    if f.is_metric ∧ t.is_metric ∧ factor > 1 then (Rat.ceil factor : ℚ) else factor
  ⟨f, t, factor⟩

/-- The seed table `CONVERSION_TABLE` of `src/conversion.rs`.  The factor
column is a decimal string in the source; each string parses (exactly) to
the rational recorded here. -/
def CONVERSION_TABLE : List (String × String × ℚ) :=
  [ (("lb"), ("kg"), 45359237 / 100000000),
    (("lb"), ("g"), 45359237 / 100000),
    (("kg"), ("lb"), 220462262 / 100000000),
    (("kg"), ("metric ton"), 1 / 1000) ]

/-- `impl From<&[&str; 3]> for ConversionRule`: parse both unit codes
(`none` embeds the panic on a malformed row; the hardcoded table never
takes that branch). -/
def ConversionRule.ofEntry? (e : String × String × ℚ) : Option ConversionRule :=
  match Unit.fromStr? e.1, Unit.fromStr? e.2.1 with
  | some a, some b => some ⟨a, b, e.2.2⟩
  | _, _ => none

/-- The four seed rules obtained by parsing `CONVERSION_TABLE`. -/
def seedRules : List ConversionRule :=
  CONVERSION_TABLE.filterMap ConversionRule.ofEntry?

/-- Membership test of the Rust `HashSet<ConversionRule>`: rules compare
by their `(from, to)` pair only. -/
def pairMem (rules : List ConversionRule) (r : ConversionRule) : Bool :=
  rules.any (fun x => x.fromUnit == r.fromUnit && x.toUnit == r.toUnit)

/-- `HashSet::insert`: a no-op when a rule with the same pair is already
present (the first-inserted factor stays authoritative). -/
def insertRule (rules : List ConversionRule) (r : ConversionRule) : List ConversionRule :=
  if pairMem rules r then rules else rules ++ [r]

/-- The body of the closure loop for one `(rule, other)` pair with
`other.from == rule.to`: insert the combined rule when its pair is new,
then insert its inverse when that pair is new too. -/
def addCombined (rules : List ConversionRule) (r other : ConversionRule) : List ConversionRule :=
  let c := r.combine other
  if pairMem rules c then rules
  else
    let inverted := c.invert
    let rules := rules ++ [c]
    if pairMem rules inverted then rules else rules ++ [inverted]

/-- One iteration of the `loop` in `ALL_CONVERSION`: snapshot the current
rules (`rules.clone()`), then for every `rule` in the snapshot and every
`other` in the snapshot with `other.from == rule.to`, run `addCombined`
against the live set. -/
def pass (rules : List ConversionRule) : List ConversionRule :=
  let snapshot := rules
  snapshot.foldl
    (fun acc r =>
      (snapshot.filter (fun other => other.fromUnit == r.toUnit)).foldl
        (fun acc2 other => addCombined acc2 r other) acc)
    rules

/-- The working set after the two seeding passes of `ALL_CONVERSION`:
every seed rule is inserted, then every seed rule's inverse. -/
def seededRules : List ConversionRule :=
  let rules := seedRules.foldl insertRule []
  (seedRules.map ConversionRule.invert).foldl insertRule rules

/-- The `loop { if rules.len() == 16 { break } ... }` of `ALL_CONVERSION`,
with explicit fuel (the termination theorem shows any fuel of at least two
yields the same fixed point). -/
def closeLoop : Nat → List ConversionRule → List ConversionRule
  | 0, rules => rules
  | n + 1, rules =>
    if rules.length = 16 then rules else closeLoop n (pass rules)

/-- The completed conversion table (`ALL_CONVERSION` in
`src/conversion.rs`). -/
def ALL_CONVERSION : List ConversionRule :=
  closeLoop 16 seededRules

/-- `Unit::convert_to`: look the `(self, to)` pair up in the completed
table and apply its factor; `none` embeds the `todo!("Error")` branch for
an absent pair.  (The Rust parameter `to` is a Lean keyword, hence `toU`.) -/
def Unit.convert_to? (self toU : Unit) (quantity : ℚ) : Option ℚ :=
  (ALL_CONVERSION.find? (fun rule => rule.fromUnit == self && toU == rule.toUnit)).map
    (fun rule => rule.apply_to quantity)

/-- `struct Conversion { from, to, quantity }`: a conversion command. -/
structure Conversion where
  fromUnit : Unit
  toUnit : Unit
  quantity : ℚ

/-- Rounding to the nearest integer (half away from zero on the positive
side), as performed digit-wise by `format!("{:.8}", x)`; no exact tie
occurs at any value evaluated in this development. -/
def decRound (q : ℚ) : ℤ :=
  Rat.floor (q + 1 / 2)

/-- `format!("{:.8}", x)` followed by `str::parse::<f64>`: round to eight
fractional decimal digits. -/
def roundTo8 (q : ℚ) : ℚ :=
  (decRound (q * 100000000) : ℚ) / 100000000

/-- `Conversion::execute`: convert, then round to eight decimal digits. -/
def Conversion.execute? (c : Conversion) : Option ℚ :=
  (c.fromUnit.convert_to? c.toUnit c.quantity).map roundTo8

/-- Convert one unit of `u` into `v` and convert the result back into `u`. -/
def roundTrip (u v : Unit) (q : ℚ) : Option ℚ :=
  (Conversion.execute? ⟨u, v, q⟩).bind (fun m => Conversion.execute? ⟨v, u, m⟩)

/-- The `combine` operation transcribed from the specification text
(section 4.2): `from = r.from`, `to = s.to`, factor `1.0` on a self-loop
else the product, then `ceil` exactly when both ends are metric and the
factor exceeds `1.0`.  Stated separately from `ConversionRule.combine` so
the code can be proved to refine the specification. -/
def combineSpec (r s : ConversionRule) : ConversionRule :=
  let f := r.fromUnit
  let t := s.toUnit
  let raw : ℚ := if f = t then 1 else r.factor * s.factor
  let corrected : ℚ :=
    if f.is_metric ∧ t.is_metric ∧ raw > 1 then (Rat.ceil raw : ℚ) else raw
  ⟨f, t, corrected⟩

/-! Proof infrastructure.  Batteries marks the `Rat` field operations
irreducible; evaluation by `decide` needs them unfolded. -/

attribute [local semireducible] Rat.mul Rat.add Rat.sub Rat.inv

set_option maxRecDepth 40000

/-- Batteries' executable `Rat.floor` agrees with the mathematical floor. -/
lemma ratFloor_eq_floor (q : ℚ) : Rat.floor q = ⌊q⌋ :=
  (Rat.floor_def' q).trans Rat.floor_def.symm

/-- Every self pair `(u, u)` is found in the completed table with factor `1`. -/
lemma find_self_rule :
    ∀ u : Unit,
      ALL_CONVERSION.find? (fun rule => rule.fromUnit == u && u == rule.toUnit)
        = some ⟨u, u, 1⟩ := by
  decide

/-- Rounding to eight decimal digits fixes every quantity that is an
integer multiple of `10 ^ (-8)`. -/
lemma roundTo8_int_div (n : ℤ) :
    roundTo8 ((n : ℚ) / 100000000) = (n : ℚ) / 100000000 := by
  have h8 : ((100000000 : ℚ)) ≠ 0 := by norm_num
  unfold roundTo8 decRound
  rw [div_mul_cancel₀ _ h8, ratFloor_eq_floor, Int.floor_int_add]
  norm_num

/-- One unfolding step of the closure loop. -/
lemma closeLoop_succ (n : Nat) (rules : List ConversionRule) :
    closeLoop (n + 1) rules
      = if rules.length = 16 then rules else closeLoop n (pass rules) :=
  rfl

/-- Once the working set holds 16 entries the loop exits immediately,
whatever fuel is left. -/
lemma closeLoop_fixed (n : Nat) (rules : List ConversionRule)
    (h : rules.length = 16) : closeLoop n rules = rules := by
  cases n with
  | zero => rfl
  | succ k => rw [closeLoop_succ, if_pos h]

/-! The claims. -/

/-- C1.  Completeness of the closure: the table holds exactly 16 rules,
exactly one per ordered pair of the four units, each self pair carrying
factor `1.0`, and the lookup of `convert_to` succeeds for every pair and
every quantity (its absent branch is never taken). -/
theorem closure_complete :
    ALL_CONVERSION.length = 16
    ∧ (∀ u v : Unit,
        (ALL_CONVERSION.filter
          (fun rule => rule.fromUnit == u && rule.toUnit == v)).length = 1)
    ∧ (∀ u : Unit,
        ALL_CONVERSION.find? (fun rule => rule.fromUnit == u && u == rule.toUnit)
          = some ⟨u, u, 1⟩)
    ∧ (∀ (u v : Unit) (q : ℚ), (Unit.convert_to? u v q).isSome = true) := by
  refine ⟨by decide, by decide, find_self_rule, fun u v q => ?_⟩
  have h : (ALL_CONVERSION.find?
      (fun rule => rule.fromUnit == u && v == rule.toUnit)).isSome = true := by
    revert v
    revert u
    decide
  unfold Unit.convert_to?
  cases hf : ALL_CONVERSION.find? (fun rule => rule.fromUnit == u && v == rule.toUnit) with
  | none => rw [hf] at h; exact absurd h (by simp)
  | some r => rfl

/-- C2.  Metric integer correction at the public interface:
`convert(Kilogram, Gram, 1.0) = 1000.0` exactly,
`convert(MetricTon, Kilogram, 1.0) = 1000.0`, and
`convert(Kilogram, MetricTon, 1.0) = 0.001`. -/
theorem metric_integer_correction :
    Conversion.execute? ⟨.Kilo, .Gram, 1⟩ = some 1000
    ∧ Conversion.execute? ⟨.Ton, .Kilo, 1⟩ = some 1000
    ∧ Conversion.execute? ⟨.Kilo, .Ton, 1⟩ = some (1 / 1000) :=
  ⟨by decide, by decide, by decide⟩

/-- C3.  `combine` produces `from = r.from`, `to = s.to`, factor `1.0` on a
self loop else the product of the factors, ceiled exactly when both ends
are metric and the factor exceeds `1.0`; the correction never fires for a
pair involving `Lb` (Pound) and never for a factor at most `1.0`. -/
theorem combine_matches_spec (r s : ConversionRule) (_h : r.toUnit = s.fromUnit) :
    r.combine s = combineSpec r s
    ∧ ((r.fromUnit = Unit.Lb ∨ s.toUnit = Unit.Lb) →
        (r.combine s).factor
          = (if r.fromUnit = s.toUnit then 1 else r.factor * s.factor))
    ∧ ((if r.fromUnit = s.toUnit then (1 : ℚ) else r.factor * s.factor) ≤ 1 →
        (r.combine s).factor
          = (if r.fromUnit = s.toUnit then 1 else r.factor * s.factor)) := by
  refine ⟨rfl, fun hlb => ?_, fun hle => ?_⟩
  · unfold ConversionRule.combine
    rcases hlb with h1 | h1 <;> simp [h1, Unit.is_metric]
  · unfold ConversionRule.combine
    simp only []
    rw [if_neg]
    rintro ⟨-, -, hgt⟩
    exact absurd hle (not_le.mpr hgt)

/-- Witness for C3 at the seed rules `lb → kg` and `kg → metric ton`. -/
theorem combine_matches_spec_witness :
    (⟨Unit.Lb, Unit.Kilo, 45359237 / 100000000⟩ : ConversionRule).combine
        ⟨Unit.Kilo, Unit.Ton, 1 / 1000⟩
      = combineSpec ⟨Unit.Lb, Unit.Kilo, 45359237 / 100000000⟩
          ⟨Unit.Kilo, Unit.Ton, 1 / 1000⟩ :=
  (combine_matches_spec ⟨Unit.Lb, Unit.Kilo, 45359237 / 100000000⟩
    ⟨Unit.Kilo, Unit.Ton, 1 / 1000⟩ rfl).1

/-- C4 (amended).  Identity conversion holds for every quantity that is
exact at eight decimal digits: for such `q`, `convert(U, U, q) = q`.  (For
a general quantity the trailing rounding of `execute` can change it, see
the counterexample.) -/
theorem identity_conversion_8dp (u : Unit) (n : ℤ) :
    Conversion.execute? ⟨u, u, (n : ℚ) / 100000000⟩
      = some ((n : ℚ) / 100000000) := by
  show ((ALL_CONVERSION.find? (fun rule => rule.fromUnit == u && u == rule.toUnit)).map
      (fun rule => rule.apply_to ((n : ℚ) / 100000000))).map roundTo8
    = some ((n : ℚ) / 100000000)
  rw [find_self_rule u]
  show some (roundTo8 ((⟨u, u, 1⟩ : ConversionRule).apply_to ((n : ℚ) / 100000000)))
    = some ((n : ℚ) / 100000000)
  rw [ConversionRule.apply_to, one_mul, roundTo8_int_div]

/-- C4 counterexample: the claim as stated fails for `q = 10 ^ (-9)`,
where the eight-digit rounding collapses the result to `0`. -/
theorem identity_conversion_counterexample :
    Conversion.execute? ⟨Unit.Lb, Unit.Lb, 1 / 1000000000⟩ = some 0
    ∧ Conversion.execute? ⟨Unit.Lb, Unit.Lb, 1 / 1000000000⟩
        ≠ some (1 / 1000000000) :=
  ⟨by decide, by decide⟩

/-- C5.  The concrete conversion scenarios, rounded to eight decimal
digits; the transitively derived `g → metric ton` factor is exactly
`10 ^ (-6)` in the table, untouched by the metric rounding rule. -/
theorem concrete_conversion_scenarios :
    Conversion.execute? ⟨.Lb, .Gram, 1⟩ = some (45359237 / 100000)
    ∧ Conversion.execute? ⟨.Lb, .Kilo, 1⟩ = some (45359237 / 100000000)
    ∧ Conversion.execute? ⟨.Kilo, .Lb, 1⟩ = some (220462262 / 100000000)
    ∧ Conversion.execute? ⟨.Gram, .Ton, 1⟩ = some (1 / 1000000)
    ∧ ALL_CONVERSION.find?
        (fun rule => rule.fromUnit == Unit.Gram && Unit.Ton == rule.toUnit)
      = some ⟨Unit.Gram, Unit.Ton, 1 / 1000000⟩ :=
  ⟨by decide, by decide, by decide, by decide, by decide⟩

/-- C6 (amended).  Round-trip invertibility holds at quantity `1.0`: for
every pair of distinct units the value converted there and back differs
from `1.0` by at most `10 ^ (-5)` (relative = absolute at `q = 1`).  For a
general quantity the eight-digit rounding of the intermediate value can
exceed the tolerance, see the counterexample. -/
theorem round_trip_unit_quantity (u v : Unit) (h : u ≠ v) :
    ∃ r : ℚ, roundTrip u v 1 = some r ∧ |r - 1| ≤ 1 / 100000 := by
  cases u <;> cases v <;> first | exact absurd rfl h | exact ⟨_, rfl, by decide⟩

/-- Witness for C6 at the pair with the largest round-trip error. -/
theorem round_trip_unit_quantity_witness :
    ∃ r : ℚ, roundTrip Unit.Lb Unit.Ton 1 = some r ∧ |r - 1| ≤ 1 / 100000 :=
  round_trip_unit_quantity Unit.Lb Unit.Ton (by decide)

/-- C6 counterexample: at `q = 1.004`, converting `g → metric ton` and
back yields exactly `1.0`, off by `0.004` relative — far beyond the
`10 ^ (-5)` tolerance the claim asserts for every quantity. -/
theorem round_trip_counterexample :
    roundTrip Unit.Gram Unit.Ton (1004 / 1000) = some 1
    ∧ ¬ (|(1 : ℚ) - 1004 / 1000| ≤ (1 / 100000) * |(1004 / 1000 : ℚ)|) :=
  ⟨by decide, by decide⟩

/-- C7.  Unit-code parsing succeeds exactly on the four recognised strings
and fails with `UnknownUnit` carrying the offending token on every other
string; in particular `oz` is rejected as `UnknownUnit("oz")`. -/
theorem unknown_unit_rejection :
    Unit.tryFrom ("lb") = .ok Unit.Lb
    ∧ Unit.tryFrom ("g") = .ok Unit.Gram
    ∧ Unit.tryFrom ("kg") = .ok Unit.Kilo
    ∧ Unit.tryFrom ("metric ton") = .ok Unit.Ton
    ∧ (∀ s : String, s ≠ ("lb") → s ≠ ("g") → s ≠ ("kg") → s ≠ ("metric ton") →
        Unit.tryFrom s = .error (ConvertError.UnknownUnit s))
    ∧ Unit.tryFrom ("oz") = .error (ConvertError.UnknownUnit ("oz")) := by
  refine ⟨rfl, rfl, rfl, rfl, fun s h1 h2 h3 h4 => ?_, rfl⟩
  unfold Unit.tryFrom
  rw [if_neg h1, if_neg h2, if_neg h3, if_neg h4]

/-- Witness for C7: the universally quantified rejection branch applied to
the concrete token `oz`. -/
theorem unknown_unit_rejection_witness :
    Unit.tryFrom ("oz") = .error (ConvertError.UnknownUnit ("oz")) :=
  unknown_unit_rejection.2.2.2.2.1 ("oz") (by decide) (by decide) (by decide) (by decide)

/-- C8.  Termination of the closure builder: from the seeded working set
(the four seed rules and their inverses, 6 distinct pairs) the loop
reaches exactly 16 entries after two passes (6 → 14 → 16) and exits; any
fuel of at least two yields the same completed table. -/
theorem closure_terminates (n : Nat) :
    closeLoop (n + 2) seededRules = ALL_CONVERSION
    ∧ ALL_CONVERSION.length = 16
    ∧ seededRules.length = 6
    ∧ (pass seededRules).length = 14
    ∧ (pass (pass seededRules)).length = 16 := by
  have h6 : ¬ (seededRules.length = 16) := by decide
  have h14 : ¬ ((pass seededRules).length = 16) := by decide
  have h16 : (pass (pass seededRules)).length = 16 := by decide
  have key : ∀ m : Nat, closeLoop (m + 2) seededRules = pass (pass seededRules) := by
    intro m
    show closeLoop (m + 1 + 1) seededRules = _
    rw [closeLoop_succ, if_neg h6, closeLoop_succ, if_neg h14, closeLoop_fixed m _ h16]
  exact ⟨(key n).trans (key 14).symm, by decide, by decide, by decide, h16⟩

end ConversionApi
